import Mathlib

/-!
Shallow embedding of the OAuth2 Authorization Code + PKCE client of
`src/auth-utils.ts` and the auth orchestrator of `App.tsx`
(repository test-cognito-vite).

Modelling conventions:
* `sessionStorage` is modelled by `SessionStore` with one field per storage
  key (`oauth_pkce_verifier`, `oauth_state`, `oauth_pending_code`,
  `oauth_exchange_in_progress`).  The pending-code entry holds a JSON-encoded
  `{code, state}` pair in the source; since `JSON.parse (JSON.stringify x) = x`
  for these records, it is modelled directly as `Option PendingCallback`.
* `localStorage`'s `auth_tokens` key is modelled as `Option StoredTokens`.
* The URL's query string is a list of key/value pairs with `URLSearchParams`
  semantics (`get` returns the first match, `delete` removes every match);
  `historyLen` counts history entries so that `history.replaceState` (which
  keeps it unchanged) is observable.
* Network responses are oracles supplied as inputs: the token endpoint's
  response (`HttpResp`) and the backend status endpoint's response
  (`StatusFetch`).  An unparsable or throwing JSON body is `none`.
* `Date.now()` during a run is the input `now` (milliseconds); the poll loop's
  per-iteration observations of the other mount's progress carry their own
  `now`, token-cache and lock-flag values (`PollObs`).
* `setUser(getUserInfoFromToken idToken)` is recorded as the id token the
  user object was derived from; no claim inspects the decoded JWT fields.
-/

/-- A `{code, state}` pair, the JSON payload of the `oauth_pending_code`
sessionStorage entry. -/
structure PendingCallback where
  code : String
  state : String
deriving DecidableEq, Repr

/-- The tab-scoped ephemeral store: one field per sessionStorage key used by
`auth-utils.ts`. -/
structure SessionStore where
  verifier : Option String
  state : Option String
  pendingCode : Option PendingCallback
  exchangeInProgress : Option String
deriving DecidableEq, Repr

/-- The visible URL: query parameters plus the history length (observing that
`replaceState` adds no history entry). -/
structure UrlState where
  query : List (String × String)
  historyLen : Nat
deriving DecidableEq, Repr

/-- `URLSearchParams.get`: first value bound to the key, if any. -/
def getParam (q : List (String × String)) (k : String) : Option String :=
  (q.find? (fun p => p.1 == k)).map (fun p => p.2)

/-- `URLSearchParams.delete`: removes every pair bound to the key. -/
def deleteParam (q : List (String × String)) (k : String) : List (String × String) :=
  q.filter (fun p => p.1 != k)

/-- `validateState` (auth-utils.ts:122): the returned state must be strictly
equal to the stored `oauth_state`; a missing stored state never matches
(in JS, `null === returnedState` is false). -/
def validateState (sess : SessionStore) (returnedState : String) : Bool :=
  sess.state == some returnedState

/-- Result of `getAuthorizationCode`: the returned value plus the updated URL
and session store. -/
structure ResolveResult where
  result : Option PendingCallback
  url : UrlState
  session : SessionStore
deriving DecidableEq, Repr

/-- The sessionStorage fallback of `getAuthorizationCode` (auth-utils.ts:150):
return the stored pending callback if present, else null; no mutation. -/
def resolveFromStore (url : UrlState) (sess : SessionStore) : ResolveResult :=
  match sess.pendingCode with
  | some pc => { result := some pc, url := url, session := sess }
  | none => { result := none, url := url, session := sess }

/-- `getAuthorizationCode` (auth-utils.ts:130): if the URL carries truthy
`code` and `state` parameters, persist them as the pending callback, strip
both parameters from the URL via `replaceState` (history length unchanged)
and return them; otherwise fall back to the stored pending callback.
JS truthiness makes the empty string fall through to the fallback. -/
def getAuthorizationCode (url : UrlState) (sess : SessionStore) : ResolveResult :=
  match getParam url.query "code", getParam url.query "state" with
  | some c, some s =>
    if c = "" ∨ s = "" then
      resolveFromStore url sess
    else
      let pc : PendingCallback := { code := c, state := s }
      { result := some pc
        url := { query := deleteParam (deleteParam url.query "code") "state"
                 historyLen := url.historyLen }
        session := { sess with pendingCode := some pc } }
  | _, _ => resolveFromStore url sess

/-- `clearAuthorizationCode` (auth-utils.ts:161): removes the pending-code
entry and the exchange-in-progress flag; verifier and state are untouched. -/
def clearAuthorizationCode (sess : SessionStore) : SessionStore :=
  { sess with pendingCode := none, exchangeInProgress := none }

/-- `markExchangeInProgress` (auth-utils.ts:169). -/
def markExchangeInProgress (sess : SessionStore) : SessionStore :=
  { sess with exchangeInProgress := some "true" }

/-- `isExchangeInProgress` (auth-utils.ts:176). -/
def isExchangeInProgress (sess : SessionStore) : Bool :=
  sess.exchangeInProgress == some "true"

/-- The token endpoint's JSON response body. -/
structure TokenResponse where
  access_token : String
  id_token : String
  refresh_token : String
  token_type : String
  expires_in : Nat
deriving DecidableEq, Repr

/-- The raw HTTP response of the token endpoint: `ok` flag, response text
(read on failure) and parsed JSON (read on success). -/
structure HttpResp where
  ok : Bool
  bodyText : String
  json : TokenResponse
deriving DecidableEq, Repr

/-- Outcome of `exchangeCodeForTokens`: thrown error or token response, the
updated session store, and how many token-endpoint network calls were made. -/
structure ExchangeResult where
  outcome : Except String TokenResponse
  session : SessionStore
  networkCalls : Nat
deriving Repr

/-- `exchangeCodeForTokens` (auth-utils.ts:83): throws `No code verifier
found` before any network call when the stored verifier is absent; otherwise
POSTs to the token endpoint (`resp` is its response); a non-ok response
throws with the response text; on success the stored verifier and state are
removed and the parsed JSON is returned. -/
def exchangeCodeForTokens (resp : HttpResp) (sess : SessionStore)
    (_code : String) : ExchangeResult :=
  match sess.verifier with
  | none =>
    { outcome := Except.error "No code verifier found"
      session := sess
      networkCalls := 0 }
  | some _ =>
    if resp.ok then
      { outcome := Except.ok resp.json
        session := { sess with verifier := none, state := none }
        networkCalls := 1 }
    else
      { outcome := Except.error ("Token exchange failed: " ++ resp.bodyText)
        session := sess
        networkCalls := 1 }

/-- The React `UserStatus` union of App.tsx. -/
inductive UserStatus where
  | loading
  | approved
  | pending
  | deactivated
  | error
deriving DecidableEq, Repr

/-- The JSON body of a backend status response, as far as the code inspects
it: its `code` field, when it is a string. -/
structure StatusBody where
  code : Option String
deriving DecidableEq, Repr

/-- A backend status-endpoint interaction: a network failure, or a response
with a status code and a body (`none` when the body is unparsable or reading
it throws). -/
inductive StatusFetch where
  | networkFail
  | response (status : Nat) (body : Option StatusBody)
deriving DecidableEq, Repr

/-- `checkUserStatus` (App.tsx:290): 200 is approved; 403 is deactivated when
the body's `code` is `ACCOUNT_DESACTIVATED` and pending otherwise (also when
the body cannot be parsed); every other status, and a fetch failure, is
error. -/
def checkUserStatus : StatusFetch → UserStatus
  | StatusFetch.networkFail => UserStatus.error
  | StatusFetch.response status body =>
    if status = 200 then UserStatus.approved
    else if status = 403 then
      match body with
      | some b =>
        if b.code = some "ACCOUNT_DESACTIVATED" then UserStatus.deactivated
        else UserStatus.pending
      | none => UserStatus.pending
    else UserStatus.error

/-- The `auth_tokens` record cached in localStorage. -/
structure StoredTokens where
  accessToken : String
  idToken : String
  refreshToken : String
  expiresAt : Nat
deriving DecidableEq, Repr

/-- Observable outcome of `checkStoredTokens`: its boolean result, the
updated token cache, the id token the user was derived from, the published
status and the number of status-endpoint calls. -/
structure CheckStoredResult where
  found : Bool
  cache : Option StoredTokens
  userIdToken : Option String
  status : Option UserStatus
  statusCalls : Nat
deriving DecidableEq, Repr

/-- `checkStoredTokens` (App.tsx:321): a cached token set is used only when
`expiresAt > Date.now()`; an expired entry is removed from localStorage and
ignored; on a valid entry the user is derived from the id token and the
status check runs. -/
def checkStoredTokens (now : Nat) (cache : Option StoredTokens)
    (statusResp : StatusFetch) : CheckStoredResult :=
  match cache with
  | some tokens =>
    if now < tokens.expiresAt then
      { found := true
        cache := cache
        userIdToken := some tokens.idToken
        status := some (checkUserStatus statusResp)
        statusCalls := 1 }
    else
      { found := false, cache := none, userIdToken := none
        status := none, statusCalls := 0 }
  | none =>
    { found := false, cache := cache, userIdToken := none
      status := none, statusCalls := 0 }

/-- One iteration's observation of the shared stores inside the poll loop:
the `auth_tokens` localStorage entry, the exchange-in-progress flag (both
mutable by the concurrently running owner mount) and `Date.now()` at that
iteration. -/
structure PollObs where
  stored : Option StoredTokens
  inProgress : Bool
  now : Nat

/-- An observation carries a token set the loop accepts: present with
`expiresAt` strictly in the future. -/
def validPollObs (o : PollObs) : Bool :=
  match o.stored with
  | some t => o.now < t.expiresAt
  | none => false

/-- The body of `waitForTokens` (App.tsx:369): iteration `i` sleeps 100 ms,
reads the token cache, succeeds on a non-expired token set, otherwise breaks
as soon as the exchange-in-progress flag is gone; `fuel` is the remaining
loop budget (50 at the top).  Returns the accepted token set (if any) and
the number of iterations executed (each one a 100 ms wait). -/
def waitForTokensGo (env : Nat → PollObs) (i : Nat) :
    Nat → Option StoredTokens × Nat
  | 0 => (none, 0)
  | fuel + 1 =>
    let o := env i
    match o.stored with
    | some t =>
      if o.now < t.expiresAt then (some t, 1)
      else if o.inProgress then
        let r := waitForTokensGo env (i + 1) fuel
        (r.1, r.2 + 1)
      else (none, 1)
    | none =>
      if o.inProgress then
        let r := waitForTokensGo env (i + 1) fuel
        (r.1, r.2 + 1)
      else (none, 1)

/-- `waitForTokens` (App.tsx:369): the bounded poll loop,
`for (let i = 0; i < 50; i++)`. -/
def waitForTokens (env : Nat → PollObs) : Option StoredTokens × Nat :=
  waitForTokensGo env 0 50

/-- Inputs of one `handleAuth` run: current URL, session store, token cache
and clock, plus the oracles for the token endpoint, the status endpoint and
the poll loop's observations of the concurrent owner's progress. -/
structure World where
  url : UrlState
  session : SessionStore
  tokenCache : Option StoredTokens
  now : Nat
  exchangeResp : HttpResp
  statusResp : StatusFetch
  pollEnv : Nat → PollObs

/-- Observable outcome of one `handleAuth` run.  `status` is the React
`userStatus` state at the end of the run (it starts as `loading` and only
`setUserStatus` changes it); `tokenCache` carries this run's own view of
localStorage (concurrent writes by the other mount are modelled by
`pollEnv`); the counters record how often the run invoked
`exchangeCodeForTokens`, reached the token endpoint, called the status
endpoint, called `markExchangeInProgress`, called `clearAuthorizationCode`,
and how many poll iterations it executed. -/
structure AuthRunResult where
  url : UrlState
  session : SessionStore
  tokenCache : Option StoredTokens
  userIdToken : Option String
  status : UserStatus
  loading : Bool
  exchangeInvocations : Nat
  exchangeNetworkCalls : Nat
  statusCalls : Nat
  markCalls : Nat
  clearCalls : Nat
  pollIters : Nat

/-- The tail of `handleAuth` past the valid-state and cached-token-reuse
checks (App.tsx:366-432): either poll for the concurrent owner's result, or
claim the lock and run the exchange. -/
def handleAuthExchangePhase (w : World) (url1 : UrlState)
    (sess1 : SessionStore) (authCode : PendingCallback) : AuthRunResult :=
  if isExchangeInProgress sess1 then
    let r := waitForTokens w.pollEnv
    match r.1 with
    | some t =>
      { url := url1, session := clearAuthorizationCode sess1
        tokenCache := w.tokenCache, userIdToken := some t.idToken
        status := checkUserStatus w.statusResp, loading := false
        exchangeInvocations := 0, exchangeNetworkCalls := 0
        statusCalls := 1, markCalls := 0, clearCalls := 1, pollIters := r.2 }
    | none =>
      { url := url1, session := clearAuthorizationCode sess1
        tokenCache := w.tokenCache, userIdToken := none
        status := UserStatus.error, loading := false
        exchangeInvocations := 0, exchangeNetworkCalls := 0
        statusCalls := 0, markCalls := 0, clearCalls := 1, pollIters := r.2 }
  else
    let sess2 := markExchangeInProgress sess1
    let ex := exchangeCodeForTokens w.exchangeResp sess2 authCode.code
    match ex.outcome with
    | Except.ok tok =>
      let storedTokens : StoredTokens :=
        { accessToken := tok.access_token
          idToken := tok.id_token
          refreshToken := tok.refresh_token
          expiresAt := w.now + tok.expires_in * 1000 }
      { url := url1, session := clearAuthorizationCode ex.session
        tokenCache := some storedTokens, userIdToken := some tok.id_token
        status := checkUserStatus w.statusResp, loading := false
        exchangeInvocations := 1, exchangeNetworkCalls := ex.networkCalls
        statusCalls := 1, markCalls := 1, clearCalls := 1, pollIters := 0 }
    | Except.error _ =>
      { url := url1, session := clearAuthorizationCode ex.session
        tokenCache := w.tokenCache, userIdToken := none
        status := UserStatus.error, loading := false
        exchangeInvocations := 1, exchangeNetworkCalls := ex.networkCalls
        statusCalls := 0, markCalls := 1, clearCalls := 1, pollIters := 0 }

/-- `handleAuth` (App.tsx:339): resolve the callback; on a state mismatch
clear the pending code and stop (no status is published); reuse a cached
non-expired token set without exchanging; otherwise run the exchange phase;
with no callback, fall back to `checkStoredTokens`. -/
def handleAuth (w : World) : AuthRunResult :=
  let r := getAuthorizationCode w.url w.session
  match r.result with
  | some authCode =>
    if validateState r.session authCode.state then
      match w.tokenCache with
      | some tokens =>
        if w.now < tokens.expiresAt then
          { url := r.url, session := clearAuthorizationCode r.session
            tokenCache := w.tokenCache, userIdToken := some tokens.idToken
            status := checkUserStatus w.statusResp, loading := false
            exchangeInvocations := 0, exchangeNetworkCalls := 0
            statusCalls := 1, markCalls := 0, clearCalls := 1, pollIters := 0 }
        else handleAuthExchangePhase w r.url r.session authCode
      | none => handleAuthExchangePhase w r.url r.session authCode
    else
      { url := r.url, session := clearAuthorizationCode r.session
        tokenCache := w.tokenCache, userIdToken := none
        status := UserStatus.loading, loading := false
        exchangeInvocations := 0, exchangeNetworkCalls := 0
        statusCalls := 0, markCalls := 0, clearCalls := 1, pollIters := 0 }
  | none =>
    let cs := checkStoredTokens w.now w.tokenCache w.statusResp
    { url := r.url, session := r.session
      tokenCache := cs.cache, userIdToken := cs.userIdToken
      status := match cs.status with
                | some s => s
                | none => UserStatus.loading
      loading := false
      exchangeInvocations := 0, exchangeNetworkCalls := 0
      statusCalls := cs.statusCalls, markCalls := 0, clearCalls := 0
      pollIters := 0 }

/-! ### Concrete scenario inputs used by witnesses and counterexamples -/

/-- A sample token-endpoint JSON body. -/
def sampleTok : TokenResponse :=
  { access_token := "at", id_token := "it", refresh_token := "rt"
    token_type := "Bearer", expires_in := 3600 }

/-- C1 witness scenario: callback `code=abc&state=wrong` in the URL while the
stored anti-CSRF state is `xyz`. -/
def wC1 : World :=
  { url := { query := [("code", "abc"), ("state", "wrong")], historyLen := 3 }
    session := { verifier := some "v", state := some "xyz"
                 pendingCode := none, exchangeInProgress := none }
    tokenCache := none, now := 1000
    exchangeResp := { ok := true, bodyText := "", json := sampleTok }
    statusResp := StatusFetch.networkFail
    pollEnv := fun _ => { stored := none, inProgress := false, now := 0 } }

/-- C3 scenario: the spec's own example, `code=abc`, `state=wrong` in the URL,
stored state `xyz`. -/
def wC3 : World :=
  { url := { query := [("code", "abc"), ("state", "wrong")], historyLen := 3 }
    session := { verifier := some "v", state := some "xyz"
                 pendingCode := none, exchangeInProgress := none }
    tokenCache := none, now := 1000
    exchangeResp := { ok := true, bodyText := "", json := sampleTok }
    statusResp := StatusFetch.networkFail
    pollEnv := fun _ => { stored := none, inProgress := false, now := 0 } }

/-- C4 witness scenario: a second mount recovers the pending callback from
the session store, finds the exchange lock set, and the owner never finishes
(every poll observation sees the lock held and no token set). -/
def wC4 : World :=
  { url := { query := [], historyLen := 3 }
    session := { verifier := some "v", state := some "xyz"
                 pendingCode := some { code := "abc", state := "xyz" }
                 exchangeInProgress := some "true" }
    tokenCache := none, now := 0
    exchangeResp := { ok := true, bodyText := "", json := sampleTok }
    statusResp := StatusFetch.networkFail
    pollEnv := fun _ => { stored := none, inProgress := true, now := 0 } }

/-- C5 counterexample scenario: this invocation finds the lock already set
by the other mount (it never calls `markExchangeInProgress` itself), and the
owner is still running when the poll budget runs out. -/
def wC5 : World :=
  { url := { query := [], historyLen := 3 }
    session := { verifier := some "v", state := some "xyz"
                 pendingCode := some { code := "abc", state := "xyz" }
                 exchangeInProgress := some "true" }
    tokenCache := none, now := 0
    exchangeResp := { ok := true, bodyText := "", json := sampleTok }
    statusResp := StatusFetch.networkFail
    pollEnv := fun _ => { stored := none, inProgress := true, now := 0 } }

/-- C5 witness scenario for the owning invocation: lock not yet set, a fresh
callback in the URL, exchange succeeds. -/
def wC5own : World :=
  { url := { query := [("code", "abc"), ("state", "xyz")], historyLen := 3 }
    session := { verifier := some "v", state := some "xyz"
                 pendingCode := none, exchangeInProgress := none }
    tokenCache := none, now := 1000
    exchangeResp := { ok := true, bodyText := "", json := sampleTok }
    statusResp := StatusFetch.response 200 none
    pollEnv := fun _ => { stored := none, inProgress := false, now := 0 } }

/-- C7 witness scenario: owner path, verifier present, token endpoint
responds ok. -/
def wC7 : World :=
  { url := { query := [("code", "abc"), ("state", "xyz")], historyLen := 3 }
    session := { verifier := some "v", state := some "xyz"
                 pendingCode := none, exchangeInProgress := none }
    tokenCache := none, now := 1000
    exchangeResp := { ok := true, bodyText := "", json := sampleTok }
    statusResp := StatusFetch.response 200 none
    pollEnv := fun _ => { stored := none, inProgress := false, now := 0 } }

/-- C9 witness scenario: valid callback while the persistent cache already
holds a token set expiring strictly in the future. -/
def wC9 : World :=
  { url := { query := [("code", "abc"), ("state", "xyz")], historyLen := 3 }
    session := { verifier := some "v", state := some "xyz"
                 pendingCode := none, exchangeInProgress := none }
    tokenCache := some { accessToken := "at", idToken := "it"
                         refreshToken := "rt", expiresAt := 5000 }
    now := 1000
    exchangeResp := { ok := true, bodyText := "", json := sampleTok }
    statusResp := StatusFetch.response 200 none
    pollEnv := fun _ => { stored := none, inProgress := false, now := 0 } }

/-! ### Helper lemmas -/

theorem find?_filter_bne (q : List (String × String)) (k : String) :
    ((q.filter (fun p => p.1 != k)).find? (fun p => p.1 == k)) = none := by
  induction q with
  | nil => rfl
  | cons p rest ih =>
    by_cases h : p.1 = k
    · simp [List.filter_cons, h, ih]
    · simp [List.filter_cons, h, List.find?_cons, ih]

theorem getParam_deleteParam_self (q : List (String × String)) (k : String) :
    getParam (deleteParam q k) k = none := by
  simp [getParam, deleteParam, find?_filter_bne]

theorem getParam_deleteParam_of_none (q : List (String × String))
    (k k' : String) (h : getParam q k = none) :
    getParam (deleteParam q k') k = none := by
  induction q with
  | nil => rfl
  | cons p rest ih =>
    by_cases hp : p.1 = k
    · simp [getParam, List.find?_cons, hp] at h
    · have hrest : getParam rest k = none := by
        simpa [getParam, List.find?_cons, hp] using h
      by_cases hp' : p.1 = k'
      · simpa [deleteParam, List.filter_cons, hp'] using ih hrest
      · have := ih hrest
        simp only [deleteParam, List.filter_cons] at this ⊢
        simpa [hp', getParam, List.find?_cons, hp] using this

theorem getAuthorizationCode_verifier (url : UrlState) (sess : SessionStore) :
    (getAuthorizationCode url sess).session.verifier = sess.verifier := by
  unfold getAuthorizationCode resolveFromStore
  split
  · split
    · split <;> rfl
    · rfl
  · split <;> rfl

theorem getAuthorizationCode_state (url : UrlState) (sess : SessionStore) :
    (getAuthorizationCode url sess).session.state = sess.state := by
  unfold getAuthorizationCode resolveFromStore
  split
  · split
    · split <;> rfl
    · rfl
  · split <;> rfl

theorem getAuthorizationCode_flag (url : UrlState) (sess : SessionStore) :
    (getAuthorizationCode url sess).session.exchangeInProgress =
      sess.exchangeInProgress := by
  unfold getAuthorizationCode resolveFromStore
  split
  · split
    · split <;> rfl
    · rfl
  · split <;> rfl

theorem waitForTokensGo_iters_le (env : Nat → PollObs) (i fuel : Nat) :
    (waitForTokensGo env i fuel).2 ≤ fuel := by
  induction fuel generalizing i with
  | zero => simp [waitForTokensGo]
  | succ fuel ih =>
    simp only [waitForTokensGo]
    cases hs : (env i).stored with
    | none =>
      by_cases hp : (env i).inProgress
      · simp only [hp, if_true]
        exact Nat.succ_le_succ (ih (i + 1))
      · simp [hp]
    | some t =>
      by_cases hv : (env i).now < t.expiresAt
      · simp [hv]
      · simp only [hv, if_false]
        by_cases hp : (env i).inProgress
        · simp only [hp, if_true]
          exact Nat.succ_le_succ (ih (i + 1))
        · simp [hp]

theorem waitForTokensGo_none_of_invalid (env : Nat → PollObs) (i fuel : Nat)
    (h : ∀ j, i ≤ j → j < i + fuel → validPollObs (env j) = false) :
    (waitForTokensGo env i fuel).1 = none := by
  induction fuel generalizing i with
  | zero => rfl
  | succ fuel ih =>
    have h0 : validPollObs (env i) = false := h i le_rfl (by omega)
    simp only [waitForTokensGo]
    cases hs : (env i).stored with
    | none =>
      by_cases hp : (env i).inProgress
      · simp only [hp, if_true]
        exact ih (i + 1) (fun j hj1 hj2 => h j (by omega) (by omega))
      · simp [hp]
    | some t =>
      have hv : ¬ (env i).now < t.expiresAt := by
        simp [validPollObs, hs] at h0
        omega
      simp only [hv, if_false]
      by_cases hp : (env i).inProgress
      · simp only [hp, if_true]
        exact ih (i + 1) (fun j hj1 hj2 => h j (by omega) (by omega))
      · simp [hp]

/-- If a callback with a valid state is observed and the cached token set is
absent or not strictly in the future, `handleAuth` runs the exchange phase. -/
theorem handleAuth_exchange_phase_eq (w : World) (ac : PendingCallback)
    (hres : (getAuthorizationCode w.url w.session).result = some ac)
    (hval : validateState (getAuthorizationCode w.url w.session).session ac.state = true)
    (hcache : ∀ t, w.tokenCache = some t → t.expiresAt ≤ w.now) :
    handleAuth w = handleAuthExchangePhase w (getAuthorizationCode w.url w.session).url
      (getAuthorizationCode w.url w.session).session ac := by
  simp only [handleAuth, hres, hval, if_true]
  cases hc : w.tokenCache with
  | none => rfl
  | some t =>
    have hlt : ¬ w.now < t.expiresAt := by
      have := hcache t hc
      omega
    simp only [hlt, if_false]

/-! ### Claim theorems -/

/-- C10: for every returned state, when no anti-CSRF state is stored in the
ephemeral session store, `validateState` returns false, so a callback with no
active PkceSession never validates. -/
theorem validateState_requires_stored_state (sess : SessionStore)
    (returnedState : String) (h : sess.state = none) :
    validateState sess returnedState = false := by
  simp [validateState, h]

/-- Witness for C10 at a concrete store and returned state. -/
theorem validateState_requires_stored_state_witness :
    validateState
      { verifier := some "v", state := none
        pendingCode := none, exchangeInProgress := none } "xyz" = false :=
  validateState_requires_stored_state _ _ rfl

/-- C2: `checkUserStatus` classifies exactly as the spec's mapping: HTTP 200
is approved; HTTP 403 whose JSON body carries code ACCOUNT_DESACTIVATED is
deactivated; HTTP 403 with any other or unparsable body is pending; any
other status code or a network failure is error. -/
theorem checkUserStatus_classification :
    (∀ b, checkUserStatus (StatusFetch.response 200 b) = UserStatus.approved) ∧
    (∀ b : StatusBody, b.code = some "ACCOUNT_DESACTIVATED" →
      checkUserStatus (StatusFetch.response 403 (some b)) = UserStatus.deactivated) ∧
    (∀ b : Option StatusBody,
      (∀ bb, b = some bb → bb.code ≠ some "ACCOUNT_DESACTIVATED") →
      checkUserStatus (StatusFetch.response 403 b) = UserStatus.pending) ∧
    (∀ s b, s ≠ 200 → s ≠ 403 →
      checkUserStatus (StatusFetch.response s b) = UserStatus.error) ∧
    checkUserStatus StatusFetch.networkFail = UserStatus.error := by
  refine ⟨?_, ?_, ?_, ?_, rfl⟩
  · intro b
    rfl
  · intro b hb
    simp [checkUserStatus, hb]
  · intro b hb
    cases b with
    | none => rfl
    | some bb =>
      have hne : bb.code ≠ some "ACCOUNT_DESACTIVATED" := hb bb rfl
      simp [checkUserStatus, hne]
  · intro s b hs200 hs403
    simp [checkUserStatus, hs200, hs403]

/-- Witness for C2 at concrete responses, one per clause. -/
theorem checkUserStatus_classification_witness :
    checkUserStatus (StatusFetch.response 200 none) = UserStatus.approved ∧
    checkUserStatus (StatusFetch.response 403
      (some { code := some "ACCOUNT_DESACTIVATED" })) = UserStatus.deactivated ∧
    checkUserStatus (StatusFetch.response 403 none) = UserStatus.pending ∧
    checkUserStatus (StatusFetch.response 403
      (some { code := some "OTHER" })) = UserStatus.pending ∧
    checkUserStatus (StatusFetch.response 500 none) = UserStatus.error ∧
    checkUserStatus StatusFetch.networkFail = UserStatus.error :=
  ⟨checkUserStatus_classification.1 none,
   checkUserStatus_classification.2.1 { code := some "ACCOUNT_DESACTIVATED" } rfl,
   checkUserStatus_classification.2.2.1 none (by intro bb h; cases h),
   checkUserStatus_classification.2.2.1 (some { code := some "OTHER" })
     (by intro bb h; cases h; decide),
   checkUserStatus_classification.2.2.2.1 500 none (by decide) (by decide),
   checkUserStatus_classification.2.2.2.2⟩

/-- C8: a stored token set is trusted only when `expiresAt` is strictly
greater than the current time, and a read that finds a token set whose
`expiresAt` is not strictly in the future treats it as absent (no user, no
status call, result false) and removes it from persistent storage. -/
theorem tokenSet_expiry_gate :
    (∀ now cache resp, (checkStoredTokens now cache resp).found = true →
      ∃ t, cache = some t ∧ now < t.expiresAt) ∧
    (∀ now (t : StoredTokens) resp, t.expiresAt ≤ now →
      checkStoredTokens now (some t) resp =
        { found := false, cache := none, userIdToken := none
          status := none, statusCalls := 0 }) := by
  constructor
  · intro now cache resp h
    cases hc : cache with
    | none => simp [checkStoredTokens, hc] at h
    | some t =>
      by_cases hlt : now < t.expiresAt
      · exact ⟨t, rfl, hlt⟩
      · simp [checkStoredTokens, hc, hlt] at h
  · intro now t resp h
    have hlt : ¬ now < t.expiresAt := by omega
    simp [checkStoredTokens, hlt]

/-- Witness for C8: a token set expiring exactly now is purged, and a trusted
read at time 0 had a strictly future expiry. -/
theorem tokenSet_expiry_gate_witness :
    checkStoredTokens 5000
        (some { accessToken := "at", idToken := "it"
                refreshToken := "rt", expiresAt := 5000 })
        StatusFetch.networkFail =
      { found := false, cache := none, userIdToken := none
        status := none, statusCalls := 0 } ∧
    ∃ t, (some { accessToken := "at", idToken := "it"
                 refreshToken := "rt", expiresAt := 1 } : Option StoredTokens) =
           some t ∧ 0 < t.expiresAt :=
  ⟨tokenSet_expiry_gate.2 5000
     { accessToken := "at", idToken := "it", refreshToken := "rt", expiresAt := 5000 }
     StatusFetch.networkFail (by decide),
   tokenSet_expiry_gate.1 0
     (some { accessToken := "at", idToken := "it", refreshToken := "rt", expiresAt := 1 })
     StatusFetch.networkFail rfl⟩

/-- C1: when the observed callback's returned state does not match the stored
anti-CSRF state, the run never invokes `exchangeCodeForTokens` and the token
endpoint is never called. -/
theorem csrf_mismatch_never_exchanges (w : World) (ac : PendingCallback)
    (hres : (getAuthorizationCode w.url w.session).result = some ac)
    (hval : validateState (getAuthorizationCode w.url w.session).session ac.state = false) :
    (handleAuth w).exchangeInvocations = 0 ∧
    (handleAuth w).exchangeNetworkCalls = 0 := by
  simp only [handleAuth, hres, hval]
  exact ⟨rfl, rfl⟩

/-- Witness for C1: callback `code=abc&state=wrong` against stored state
`xyz`. -/
theorem csrf_mismatch_never_exchanges_witness :
    (handleAuth wC1).exchangeInvocations = 0 ∧
    (handleAuth wC1).exchangeNetworkCalls = 0 :=
  csrf_mismatch_never_exchanges wC1 { code := "abc", state := "wrong" }
    (by decide) (by decide)

/-- C9: when a callback with a valid state is observed while the persistent
cache already holds a token set expiring strictly in the future, the run
performs no token exchange, clears the pending callback, and goes straight
to the account-status check. -/
theorem cached_tokens_skip_exchange (w : World) (ac : PendingCallback)
    (tokens : StoredTokens)
    (hres : (getAuthorizationCode w.url w.session).result = some ac)
    (hval : validateState (getAuthorizationCode w.url w.session).session ac.state = true)
    (hcache : w.tokenCache = some tokens)
    (hfresh : w.now < tokens.expiresAt) :
    (handleAuth w).exchangeInvocations = 0 ∧
    (handleAuth w).exchangeNetworkCalls = 0 ∧
    (handleAuth w).session.pendingCode = none ∧
    (handleAuth w).statusCalls = 1 ∧
    (handleAuth w).status = checkUserStatus w.statusResp := by
  simp only [handleAuth, hres, hval, if_true, hcache, hfresh]
  simp [clearAuthorizationCode]

/-- Witness for C9: valid callback, cached token set expiring at 5000 at
time 1000. -/
theorem cached_tokens_skip_exchange_witness :
    (handleAuth wC9).exchangeInvocations = 0 ∧
    (handleAuth wC9).exchangeNetworkCalls = 0 ∧
    (handleAuth wC9).session.pendingCode = none ∧
    (handleAuth wC9).statusCalls = 1 ∧
    (handleAuth wC9).status = checkUserStatus wC9.statusResp :=
  cached_tokens_skip_exchange wC9 { code := "abc", state := "xyz" }
    { accessToken := "at", idToken := "it", refreshToken := "rt", expiresAt := 5000 }
    (by decide) (by decide) rfl (by decide)

/-- C3 counterexample: on the spec's own scenario (`code=abc`, `state=wrong`
in the URL, stored state `xyz`) the run does NOT publish status `error` (the
status stays `loading`) and the PkceSession is NOT deleted (verifier and
state survive). -/
theorem csrf_mismatch_run_counterexample :
    (handleAuth wC3).status ≠ UserStatus.error ∧
    (handleAuth wC3).status = UserStatus.loading ∧
    (handleAuth wC3).session.verifier = some "v" ∧
    (handleAuth wC3).session.state = some "xyz" := by
  refine ⟨by decide, by decide, by decide, by decide⟩

/-- C3 amended: when the observed callback's state fails validation, the run
ends with `loading` cleared but no status published (it stays `loading`);
the PendingCallback and ExchangeLock are removed, while the PkceSession's
verifier and state are left in place; no exchange is attempted. -/
theorem csrf_mismatch_run_outcome (w : World) (ac : PendingCallback)
    (hres : (getAuthorizationCode w.url w.session).result = some ac)
    (hval : validateState (getAuthorizationCode w.url w.session).session ac.state = false) :
    (handleAuth w).status = UserStatus.loading ∧
    (handleAuth w).loading = false ∧
    (handleAuth w).session.pendingCode = none ∧
    (handleAuth w).session.exchangeInProgress = none ∧
    (handleAuth w).session.verifier = w.session.verifier ∧
    (handleAuth w).session.state = w.session.state ∧
    (handleAuth w).exchangeInvocations = 0 := by
  simp only [handleAuth, hres, hval]
  refine ⟨rfl, rfl, rfl, rfl, ?_, ?_, rfl⟩
  · exact getAuthorizationCode_verifier w.url w.session
  · exact getAuthorizationCode_state w.url w.session

/-- Witness for the amended C3 on the spec's scenario. -/
theorem csrf_mismatch_run_outcome_witness :
    (handleAuth wC3).status = UserStatus.loading ∧
    (handleAuth wC3).loading = false ∧
    (handleAuth wC3).session.pendingCode = none ∧
    (handleAuth wC3).session.exchangeInProgress = none ∧
    (handleAuth wC3).session.verifier = wC3.session.verifier ∧
    (handleAuth wC3).session.state = wC3.session.state ∧
    (handleAuth wC3).exchangeInvocations = 0 :=
  csrf_mismatch_run_outcome wC3 { code := "abc", state := "wrong" }
    (by decide) (by decide)

/-- C4: the poll loop of a non-owning initializer executes at most its fixed
budget of 50 iterations (one 100 ms wait each), and when no poll observation
ever shows a valid token set — whether the lock disappears early or the
budget runs out — the run surfaces status `error` and clears the pending
callback. -/
theorem poll_budget_and_failure :
    (∀ (env : Nat → PollObs) (i fuel : Nat),
      (waitForTokensGo env i fuel).2 ≤ fuel) ∧
    (∀ (w : World) (ac : PendingCallback),
      (getAuthorizationCode w.url w.session).result = some ac →
      validateState (getAuthorizationCode w.url w.session).session ac.state = true →
      (∀ t, w.tokenCache = some t → t.expiresAt ≤ w.now) →
      isExchangeInProgress (getAuthorizationCode w.url w.session).session = true →
      (∀ i, i < 50 → validPollObs (w.pollEnv i) = false) →
      (handleAuth w).pollIters ≤ 50 ∧
      (handleAuth w).status = UserStatus.error ∧
      (handleAuth w).session.pendingCode = none ∧
      (handleAuth w).exchangeInvocations = 0) := by
  constructor
  · exact waitForTokensGo_iters_le
  · intro w ac hres hval hcache hlock henv
    have hwait : (waitForTokens w.pollEnv).1 = none :=
      waitForTokensGo_none_of_invalid w.pollEnv 0 50
        (fun j hj1 hj2 => henv j (by omega))
    rw [handleAuth_exchange_phase_eq w ac hres hval hcache]
    simp only [handleAuthExchangePhase, hlock, if_true, hwait]
    refine ⟨?_, ?_⟩
    · exact waitForTokensGo_iters_le w.pollEnv 0 50
    · simp [clearAuthorizationCode]

/-- Witness for C4: a second mount recovers the pending callback, finds the
lock held, and the owner never completes. -/
theorem poll_budget_and_failure_witness :
    (handleAuth wC4).pollIters ≤ 50 ∧
    (handleAuth wC4).status = UserStatus.error ∧
    (handleAuth wC4).session.pendingCode = none ∧
    (handleAuth wC4).exchangeInvocations = 0 :=
  poll_budget_and_failure.2 wC4 { code := "abc", state := "xyz" }
    (by decide) (by decide)
    (fun t h => Option.noConfusion h)
    (by decide)
    (fun i _ => rfl)

/-- C5 counterexample: an invocation that finds the ExchangeLock already set
(and never calls `markExchangeInProgress` itself) still removes the lock on
its timeout path, because `clearAuthorizationCode` deletes the lock flag
together with the pending code — contradicting the claim that only the
invocation that set the lock ever clears it. -/
theorem lock_cleared_by_non_owner_counterexample :
    wC5.session.exchangeInProgress = some "true" ∧
    (handleAuth wC5).markCalls = 0 ∧
    (handleAuth wC5).clearCalls = 1 ∧
    (handleAuth wC5).session.exchangeInProgress = none := by
  refine ⟨rfl, by decide, by decide, by decide⟩

/-- C5 amended: every terminal path of the exchange phase removes the
ExchangeLock via `clearAuthorizationCode`: the owning invocation removes it
after its exchange succeeds or fails, and a polling (non-owning) invocation
— which never sets the lock — also removes it when its wait ends, in success
as in failure. -/
theorem lock_clearing_on_terminal_paths (w : World) (ac : PendingCallback)
    (hres : (getAuthorizationCode w.url w.session).result = some ac)
    (hval : validateState (getAuthorizationCode w.url w.session).session ac.state = true)
    (hcache : ∀ t, w.tokenCache = some t → t.expiresAt ≤ w.now) :
    (isExchangeInProgress (getAuthorizationCode w.url w.session).session = true →
      (handleAuth w).markCalls = 0 ∧
      (handleAuth w).clearCalls = 1 ∧
      (handleAuth w).session.exchangeInProgress = none) ∧
    (isExchangeInProgress (getAuthorizationCode w.url w.session).session = false →
      (handleAuth w).markCalls = 1 ∧
      (handleAuth w).clearCalls = 1 ∧
      (handleAuth w).session.exchangeInProgress = none) := by
  rw [handleAuth_exchange_phase_eq w ac hres hval hcache]
  constructor
  · intro hlock
    simp only [handleAuthExchangePhase, hlock, if_true]
    cases hw : (waitForTokens w.pollEnv).1 <;> simp [clearAuthorizationCode]
  · intro hlock
    simp only [handleAuthExchangePhase, hlock, Bool.false_eq_true, if_false]
    cases hex : (exchangeCodeForTokens w.exchangeResp
        (markExchangeInProgress (getAuthorizationCode w.url w.session).session)
        ac.code).outcome <;> exact ⟨rfl, rfl, rfl⟩

/-- Witness for the amended C5: the polling invocation (lock found held) and
the owning invocation (lock claimed, exchange succeeds). -/
theorem lock_clearing_on_terminal_paths_witness :
    ((handleAuth wC5).markCalls = 0 ∧
     (handleAuth wC5).clearCalls = 1 ∧
     (handleAuth wC5).session.exchangeInProgress = none) ∧
    ((handleAuth wC5own).markCalls = 1 ∧
     (handleAuth wC5own).clearCalls = 1 ∧
     (handleAuth wC5own).session.exchangeInProgress = none) :=
  ⟨(lock_clearing_on_terminal_paths wC5 { code := "abc", state := "xyz" }
      (by decide) (by decide) (fun t h => Option.noConfusion h)).1 (by decide),
   (lock_clearing_on_terminal_paths wC5own { code := "abc", state := "xyz" }
      (by decide) (by decide) (fun t h => Option.noConfusion h)).2 (by decide)⟩

/-- C6: `getAuthorizationCode` follows the three-step algorithm and is
idempotent under duplicate invocation.  When both `code` and `state` are
present (and non-empty) in the URL it persists them as the pending callback,
strips both parameters from the visible URL with the history length
unchanged, and returns them; a subsequent call on the resulting clean URL and
store returns the same pair with URL and store unchanged; with neither
parameter present and no stored pending callback it returns absent. -/
theorem resolveCallback_algorithm :
    (∀ (url : UrlState) (sess : SessionStore) (c s : String),
      getParam url.query "code" = some c → getParam url.query "state" = some s →
      c ≠ "" → s ≠ "" →
      (getAuthorizationCode url sess).result = some { code := c, state := s } ∧
      (getAuthorizationCode url sess).session =
        { sess with pendingCode := some { code := c, state := s } } ∧
      getParam (getAuthorizationCode url sess).url.query "code" = none ∧
      getParam (getAuthorizationCode url sess).url.query "state" = none ∧
      (getAuthorizationCode url sess).url.historyLen = url.historyLen ∧
      getAuthorizationCode (getAuthorizationCode url sess).url
          (getAuthorizationCode url sess).session =
        { result := some { code := c, state := s }
          url := (getAuthorizationCode url sess).url
          session := (getAuthorizationCode url sess).session }) ∧
    (∀ (url : UrlState) (sess : SessionStore),
      getParam url.query "code" = none → getParam url.query "state" = none →
      sess.pendingCode = none →
      getAuthorizationCode url sess =
        { result := none, url := url, session := sess }) := by
  constructor
  · intro url sess c s hc hs hc0 hs0
    have hmain : getAuthorizationCode url sess =
        { result := some { code := c, state := s }
          url := { query := deleteParam (deleteParam url.query "code") "state"
                   historyLen := url.historyLen }
          session := { sess with pendingCode := some { code := c, state := s } } } := by
      simp [getAuthorizationCode, hc, hs, hc0, hs0]
    rw [hmain]
    have h1 : getParam (deleteParam (deleteParam url.query "code") "state") "code" = none :=
      getParam_deleteParam_of_none _ "code" "state"
        (getParam_deleteParam_self url.query "code")
    have h2 : getParam (deleteParam (deleteParam url.query "code") "state") "state" = none :=
      getParam_deleteParam_self _ "state"
    refine ⟨rfl, rfl, h1, h2, rfl, ?_⟩
    simp [getAuthorizationCode, h1, h2, resolveFromStore]
  · intro url sess hc hs hp
    simp [getAuthorizationCode, hc, hs, resolveFromStore, hp]

/-- Witness for C6: URL `?code=abc&state=xyz` on an empty store, then the
clean URL, then an empty URL with an empty store. -/
theorem resolveCallback_algorithm_witness :
    (getAuthorizationCode
        { query := [("code", "abc"), ("state", "xyz")], historyLen := 3 }
        { verifier := none, state := none
          pendingCode := none, exchangeInProgress := none }).result =
      some { code := "abc", state := "xyz" } ∧
    getParam (getAuthorizationCode
        { query := [("code", "abc"), ("state", "xyz")], historyLen := 3 }
        { verifier := none, state := none
          pendingCode := none, exchangeInProgress := none }).url.query "code" =
      none ∧
    getAuthorizationCode { query := [], historyLen := 3 }
        { verifier := none, state := none
          pendingCode := none, exchangeInProgress := none } =
      { result := none
        url := { query := [], historyLen := 3 }
        session := { verifier := none, state := none
                     pendingCode := none, exchangeInProgress := none } } :=
  ⟨(resolveCallback_algorithm.1
      { query := [("code", "abc"), ("state", "xyz")], historyLen := 3 }
      { verifier := none, state := none
        pendingCode := none, exchangeInProgress := none }
      "abc" "xyz" rfl rfl (by decide) (by decide)).1,
   (resolveCallback_algorithm.1
      { query := [("code", "abc"), ("state", "xyz")], historyLen := 3 }
      { verifier := none, state := none
        pendingCode := none, exchangeInProgress := none }
      "abc" "xyz" rfl rfl (by decide) (by decide)).2.2.1,
   resolveCallback_algorithm.2 { query := [], historyLen := 3 }
      { verifier := none, state := none
        pendingCode := none, exchangeInProgress := none } rfl rfl rfl⟩

/-- C7: `exchangeCodeForTokens` fails with no network call when no verifier
is stored; a non-ok token response fails with the response body as error
detail; on success the stored verifier and state are cleared (single use)
and the caller records an absolute expiry of `Date.now()` plus
`expires_in * 1000` milliseconds. -/
theorem exchange_verifier_gate_and_expiry :
    (∀ (resp : HttpResp) (sess : SessionStore) (code : String),
      sess.verifier = none →
      (exchangeCodeForTokens resp sess code).networkCalls = 0 ∧
      (exchangeCodeForTokens resp sess code).outcome =
        Except.error "No code verifier found" ∧
      (exchangeCodeForTokens resp sess code).session = sess) ∧
    (∀ (resp : HttpResp) (sess : SessionStore) (code v : String),
      sess.verifier = some v → resp.ok = false →
      (exchangeCodeForTokens resp sess code).outcome =
        Except.error ("Token exchange failed: " ++ resp.bodyText)) ∧
    (∀ (resp : HttpResp) (sess : SessionStore) (code v : String),
      sess.verifier = some v → resp.ok = true →
      (exchangeCodeForTokens resp sess code).outcome = Except.ok resp.json ∧
      (exchangeCodeForTokens resp sess code).session.verifier = none ∧
      (exchangeCodeForTokens resp sess code).session.state = none) ∧
    (∀ (w : World) (ac : PendingCallback) (v : String),
      (getAuthorizationCode w.url w.session).result = some ac →
      validateState (getAuthorizationCode w.url w.session).session ac.state = true →
      w.tokenCache = none →
      isExchangeInProgress (getAuthorizationCode w.url w.session).session = false →
      (getAuthorizationCode w.url w.session).session.verifier = some v →
      w.exchangeResp.ok = true →
      (handleAuth w).tokenCache = some
        { accessToken := w.exchangeResp.json.access_token
          idToken := w.exchangeResp.json.id_token
          refreshToken := w.exchangeResp.json.refresh_token
          expiresAt := w.now + w.exchangeResp.json.expires_in * 1000 }) := by
  refine ⟨?_, ?_, ?_, ?_⟩
  · intro resp sess code h
    simp [exchangeCodeForTokens, h]
  · intro resp sess code v hv hok
    simp [exchangeCodeForTokens, hv, hok]
  · intro resp sess code v hv hok
    simp [exchangeCodeForTokens, hv, hok]
  · intro w ac v hres hval hnone hlock hver hok
    rw [handleAuth_exchange_phase_eq w ac hres hval
      (fun t h => by rw [hnone] at h; exact Option.noConfusion h)]
    simp only [handleAuthExchangePhase, hlock, Bool.false_eq_true, if_false]
    have hver2 : (markExchangeInProgress
        (getAuthorizationCode w.url w.session).session).verifier = some v := hver
    simp only [exchangeCodeForTokens, hver2, hok, if_true]

/-- Witness for C7: missing verifier, failing response, succeeding response,
and a full owner run recording the absolute expiry. -/
theorem exchange_verifier_gate_and_expiry_witness :
    (exchangeCodeForTokens { ok := true, bodyText := "", json := sampleTok }
        { verifier := none, state := none
          pendingCode := none, exchangeInProgress := none }
        "abc").networkCalls = 0 ∧
    (exchangeCodeForTokens { ok := false, bodyText := "bad", json := sampleTok }
        { verifier := some "v", state := some "xyz"
          pendingCode := none, exchangeInProgress := none }
        "abc").outcome = Except.error ("Token exchange failed: " ++ "bad") ∧
    (exchangeCodeForTokens { ok := true, bodyText := "", json := sampleTok }
        { verifier := some "v", state := some "xyz"
          pendingCode := none, exchangeInProgress := none }
        "abc").session.verifier = none ∧
    (handleAuth wC7).tokenCache = some
      { accessToken := wC7.exchangeResp.json.access_token
        idToken := wC7.exchangeResp.json.id_token
        refreshToken := wC7.exchangeResp.json.refresh_token
        expiresAt := wC7.now + wC7.exchangeResp.json.expires_in * 1000 } :=
  ⟨(exchange_verifier_gate_and_expiry.1
      { ok := true, bodyText := "", json := sampleTok }
      { verifier := none, state := none
        pendingCode := none, exchangeInProgress := none } "abc" rfl).1,
   exchange_verifier_gate_and_expiry.2.1
      { ok := false, bodyText := "bad", json := sampleTok }
      { verifier := some "v", state := some "xyz"
        pendingCode := none, exchangeInProgress := none } "abc" "v" rfl rfl,
   (exchange_verifier_gate_and_expiry.2.2.1
      { ok := true, bodyText := "", json := sampleTok }
      { verifier := some "v", state := some "xyz"
        pendingCode := none, exchangeInProgress := none } "abc" "v" rfl rfl).2.1,
   exchange_verifier_gate_and_expiry.2.2.2 wC7 { code := "abc", state := "xyz" }
      "v" (by decide) (by decide) rfl (by decide) (by decide) rfl⟩
